import Mathlib

/-!
Verification of the `tauri-plugin-windows` webview client
(`src/webview-src/index.ts` against the type declarations in
`src/unnamed/part_000` / `part_001`).

The client is a thin proxy: every method of the `Windows` class builds a
command name plus a keyword-argument record and hands them to the Tauri
remote-invocation primitive `invoke`, returning the resulting promise
unchanged.  We embed the data model (`windows.d.ts`), the argument records
each method constructs, and the method bodies as small effect programs
over an abstract host, and prove the interface-contract properties of the
specification about them.
-/

namespace TauriWindows

/-- JavaScript values as they cross the `invoke` boundary: the channel
string, the `any`-typed payloads, and the serialized option records are
all of this shape.  Numbers are modelled as integers (no arithmetic is
ever performed on them by this client, they are forwarded opaquely). -/
inductive JValue : Type where
  | null : JValue
  | bool : Bool → JValue
  | num : Int → JValue
  | str : String → JValue
  | arr : List JValue → JValue
  | obj : List (String × JValue) → JValue

/-- `export declare enum OpenContext \x7b Cli = 0, Dock = 1, Menu = 2,
Dialog = 3, Desktop = 4 \x7d` from `windows.d.ts`. -/
inductive OpenContext : Type where
  | Cli : OpenContext
  | Dock : OpenContext
  | Menu : OpenContext
  | Dialog : OpenContext
  | Desktop : OpenContext

/-- The numeric value of an `OpenContext` member (TypeScript enums are
numeric, starting at 0). -/
def OpenContext.toNum : OpenContext → Int
  | .Cli => 0
  | .Dock => 1
  | .Menu => 2
  | .Dialog => 3
  | .Desktop => 4

/-- `export declare enum Theme \x7b Light = 0, Dark = 1 \x7d`. -/
inductive Theme : Type where
  | Light : Theme
  | Dark : Theme

/-- The numeric value of a `Theme` member. -/
def Theme.toNum : Theme → Int
  | .Light => 0
  | .Dark => 1

/-- `WindowOpenable` from `windows.d.ts`: an optional folder location and
an optional file location.  `string | null | undefined` fields are
modelled as `Option String` (absent values serialize as null). -/
structure WindowOpenable : Type where
  folder_uri : Option String
  file_uri : Option String

/-- `OpenConfiguration` from `windows.d.ts`, field for field. -/
structure OpenConfiguration : Type where
  label : Option String
  url : Option String
  uris_to_open : Option (List WindowOpenable)
  context_window_label : Option String
  context : OpenContext
  force_new_window : Bool
  force_new_tabbed_window : Bool
  force_reuse_window : Bool
  force_empty_window : Bool
  prefer_new_window : Bool
  initial_startup : Bool
  diff_mode : Bool

/-- `WindowSize` from `windows.d.ts`. -/
structure WindowSize : Type where
  width : Int
  height : Int

/-- `WindowPosition` from `windows.d.ts`. -/
structure WindowPosition : Type where
  x : Int
  y : Int

/-- `EmptyWindowBackupInfo` from `windows.d.ts`. -/
structure EmptyWindowBackupInfo : Type where
  backup_folder : String

/-- `FilesToOpen` from `windows.d.ts`. -/
structure FilesToOpen : Type where
  files_to_open_or_create : List String
  files_to_diff : List String
  files_to_wait : List String

/-- `WindowOptions extends TauriWindowOptions` from `windows.d.ts`,
flattened: the base presentation options first, then the reuse-policy
extension fields. -/
structure WindowOptions : Type where
  label : Option String
  url : Option String
  always_on_top : Option Bool
  center : Bool
  decorations : Option Bool
  focus : Bool
  fullscreen : Option Bool
  inner_size : Option WindowSize
  max_inner_size : Option WindowSize
  maximized : Option Bool
  min_inner_size : Option WindowSize
  position : Option WindowPosition
  resizable : Option Bool
  skip_taskbar : Option Bool
  theme : Option Theme
  title : Option String
  transparent : Option Bool
  visible : Option Bool
  initial_startup : Bool
  force_new_window : Bool
  force_new_tabbed_window : Bool
  force_reuse_window : Bool
  force_empty_window : Bool
  empty_window_backup_info : Option EmptyWindowBackupInfo
  files_to_open : FilesToOpen
  window_to_use : Option String
  folder : Option String

/-- Serialize an optional value, absent becoming null. -/
def encOpt {α : Type} (f : α → JValue) : Option α → JValue
  | none => JValue.null
  | some a => f a

/-- Serialize an optional string. -/
def encOptStr : Option String → JValue := encOpt JValue.str

/-- Serialize an optional boolean. -/
def encOptBool : Option Bool → JValue := encOpt JValue.bool

/-- Serialize a `WindowOpenable`. -/
def WindowOpenable.toJValue (w : WindowOpenable) : JValue :=
  .obj [("folder_uri", encOptStr w.folder_uri), ("file_uri", encOptStr w.file_uri)]

/-- Serialize an `OpenConfiguration`, fields in declaration order. -/
def OpenConfiguration.toJValue (c : OpenConfiguration) : JValue :=
  .obj
    [("label", encOptStr c.label),
     ("url", encOptStr c.url),
     ("uris_to_open", encOpt (fun l => .arr (l.map WindowOpenable.toJValue)) c.uris_to_open),
     ("context_window_label", encOptStr c.context_window_label),
     ("context", .num c.context.toNum),
     ("force_new_window", .bool c.force_new_window),
     ("force_new_tabbed_window", .bool c.force_new_tabbed_window),
     ("force_reuse_window", .bool c.force_reuse_window),
     ("force_empty_window", .bool c.force_empty_window),
     ("prefer_new_window", .bool c.prefer_new_window),
     ("initial_startup", .bool c.initial_startup),
     ("diff_mode", .bool c.diff_mode)]

/-- Serialize a `WindowSize`. -/
def WindowSize.toJValue (s : WindowSize) : JValue :=
  .obj [("width", .num s.width), ("height", .num s.height)]

/-- Serialize a `WindowPosition`. -/
def WindowPosition.toJValue (p : WindowPosition) : JValue :=
  .obj [("x", .num p.x), ("y", .num p.y)]

/-- Serialize an `EmptyWindowBackupInfo`. -/
def EmptyWindowBackupInfo.toJValue (b : EmptyWindowBackupInfo) : JValue :=
  .obj [("backup_folder", .str b.backup_folder)]

/-- Serialize a `FilesToOpen`. -/
def FilesToOpen.toJValue (f : FilesToOpen) : JValue :=
  .obj
    [("files_to_open_or_create", .arr (f.files_to_open_or_create.map JValue.str)),
     ("files_to_diff", .arr (f.files_to_diff.map JValue.str)),
     ("files_to_wait", .arr (f.files_to_wait.map JValue.str))]

/-- Serialize a `WindowOptions`, fields in declaration order. -/
def WindowOptions.toJValue (o : WindowOptions) : JValue :=
  .obj
    [("label", encOptStr o.label),
     ("url", encOptStr o.url),
     ("always_on_top", encOptBool o.always_on_top),
     ("center", .bool o.center),
     ("decorations", encOptBool o.decorations),
     ("focus", .bool o.focus),
     ("fullscreen", encOptBool o.fullscreen),
     ("inner_size", encOpt WindowSize.toJValue o.inner_size),
     ("max_inner_size", encOpt WindowSize.toJValue o.max_inner_size),
     ("maximized", encOptBool o.maximized),
     ("min_inner_size", encOpt WindowSize.toJValue o.min_inner_size),
     ("position", encOpt WindowPosition.toJValue o.position),
     ("resizable", encOptBool o.resizable),
     ("skip_taskbar", encOptBool o.skip_taskbar),
     ("theme", encOpt (fun t => .num t.toNum) o.theme),
     ("title", encOptStr o.title),
     ("transparent", encOptBool o.transparent),
     ("visible", encOptBool o.visible),
     ("initial_startup", .bool o.initial_startup),
     ("force_new_window", .bool o.force_new_window),
     ("force_new_tabbed_window", .bool o.force_new_tabbed_window),
     ("force_reuse_window", .bool o.force_reuse_window),
     ("force_empty_window", .bool o.force_empty_window),
     ("empty_window_backup_info", encOpt EmptyWindowBackupInfo.toJValue o.empty_window_backup_info),
     ("files_to_open", o.files_to_open.toJValue),
     ("window_to_use", encOptStr o.window_to_use),
     ("folder", encOptStr o.folder)]

/-- One use of the remote-invocation primitive: `invoke(cmd)` or
`invoke(cmd, args)`.  `args = none` is a call with no argument record. -/
structure InvokeCall : Type where
  cmd : String
  args : Option (List (String × JValue))

/-- A client method body, as an effect program over the host: it either
settles (resolve or reject with a value), or issues one `invoke` and
continues with the host's settled answer. -/
inductive ClientProg : Type where
  | resolved : JValue → ClientProg
  | rejected : JValue → ClientProg
  | invokeThen : InvokeCall → (Except JValue JValue → ClientProg) → ClientProg

/-- `return invoke(...)` returns the invoke promise itself, so the
continuation of every method is the identity on settled results: a
fulfilment resolves the method's promise with the same value and a
rejection rejects it with the same error. -/
def settle : Except JValue JValue → ClientProg
  | .ok v => .resolved v
  | .error e => .rejected e

/-- A host behavior: the settled result the remote-invocation primitive
produces for a given call. -/
def Host : Type := InvokeCall → Except JValue JValue

/-- Run a method body against a host, collecting the remote calls it
issues (in order) and its settled result. -/
def run : ClientProg → Host → List InvokeCall × Except JValue JValue
  | .resolved v, _ => ([], .ok v)
  | .rejected e, _ => ([], .error e)
  | .invokeThen c k, host =>
    let rest := run (k (host c)) host
    (c :: rest.1, rest.2)

/-- The `Windows` class instance as a JavaScript object: the class
declares no fields and its constructor is empty, so an instance is just
its (initially empty) dynamic own-property map, plus the frozen flag set
by `Object.freeze`. -/
structure Windows : Type where
  props : List (String × JValue)
  frozen : Bool

/-- `new Windows()`: the constructor body is empty, the fresh object has
no own properties and is not frozen. -/
def Windows.new : Windows := ⟨[], false⟩

/-- `Object.freeze(w)`. -/
def Windows.freeze (w : Windows) : Windows := ⟨w.props, true⟩

/-- A property assignment `w[k] = v` attempted on the object: it updates
the own-property map unless the object is frozen, in which case it is a
no-op (silent failure, or a TypeError in strict mode — either way the
object is unchanged). -/
def Windows.setProp (w : Windows) (k : String) (v : JValue) : Windows :=
  if w.frozen then w else ⟨(k, v) :: w.props, w.frozen⟩

/-- `open_window(configuration)`: one `invoke` of
`plugin:windows|open_window` with the record `\x7bconfiguration\x7d`,
whose promise is returned directly.  The method reads no instance state
and writes none, so the instance comes back unchanged. -/
def Windows.open_window (w : Windows) (configuration : OpenConfiguration) :
    Windows × ClientProg :=
  (w, .invokeThen
    ⟨"plugin:windows|open_window",
     some [("configuration", configuration.toJValue)]⟩ settle)

/-- `open_empty_window(configuration, options)`: one `invoke` of
`plugin:windows|open_empty_window` with `\x7bconfiguration, options\x7d`. -/
def Windows.open_empty_window (w : Windows) (configuration : OpenConfiguration)
    (options : WindowOptions) : Windows × ClientProg :=
  (w, .invokeThen
    ⟨"plugin:windows|open_empty_window",
     some [("configuration", configuration.toJValue),
           ("options", options.toJValue)]⟩ settle)

/-- `open_existing_window(configuration, windowToUse)`: one `invoke` of
`plugin:windows|open_existing_window` with
`\x7bconfiguration, windowToUse\x7d` (shorthand keys, so the identifier
travels under the camel-cased key `windowToUse`). -/
def Windows.open_existing_window (w : Windows) (configuration : OpenConfiguration)
    (windowToUse : String) : Windows × ClientProg :=
  (w, .invokeThen
    ⟨"plugin:windows|open_existing_window",
     some [("configuration", configuration.toJValue),
           ("windowToUse", .str windowToUse)]⟩ settle)

/-- `send_to_focused(channel, payload)`: one `invoke` of
`plugin:windows|send_to_focused` with `\x7bchannel, payload\x7d`; the
`any`-typed payload is placed in the record as given. -/
def Windows.send_to_focused (w : Windows) (channel : String) (payload : JValue) :
    Windows × ClientProg :=
  (w, .invokeThen
    ⟨"plugin:windows|send_to_focused",
     some [("channel", .str channel), ("payload", payload)]⟩ settle)

/-- `send_to_all(channel, payload)`: one `invoke` of
`plugin:windows|send_to_all` with `\x7bchannel, payload\x7d`. -/
def Windows.send_to_all (w : Windows) (channel : String) (payload : JValue) :
    Windows × ClientProg :=
  (w, .invokeThen
    ⟨"plugin:windows|send_to_all",
     some [("channel", .str channel), ("payload", payload)]⟩ settle)

/-- `get_focused_window()`: one `invoke` of
`plugin:windows|get_focused_window` with no argument record. -/
def Windows.get_focused_window (w : Windows) : Windows × ClientProg :=
  (w, .invokeThen ⟨"plugin:windows|get_focused_window", none⟩ settle)

/-- `get_last_active_window()`: one `invoke` of
`plugin:windows|get_last_active_window` with no argument record. -/
def Windows.get_last_active_window (w : Windows) : Windows × ClientProg :=
  (w, .invokeThen ⟨"plugin:windows|get_last_active_window", none⟩ settle)

/-- `const WindowsService = new Windows(); Object.freeze(WindowsService);` -/
def WindowsService : Windows := Windows.new.freeze

/-- `export default WindowsService`: every access to the module's entry
point yields the one module-level constant. -/
def getService : Unit → Windows := fun _ => WindowsService

/-- One invocation of one of the seven operations, with its arguments. -/
inductive Op : Type where
  | open_window : OpenConfiguration → Op
  | open_empty_window : OpenConfiguration → WindowOptions → Op
  | open_existing_window : OpenConfiguration → String → Op
  | send_to_focused : String → JValue → Op
  | send_to_all : String → JValue → Op
  | get_focused_window : Op
  | get_last_active_window : Op

/-- Dispatch an operation to the corresponding method of the instance. -/
def Windows.dispatch (w : Windows) : Op → Windows × ClientProg
  | .open_window c => w.open_window c
  | .open_empty_window c o => w.open_empty_window c o
  | .open_existing_window c s => w.open_existing_window c s
  | .send_to_focused ch p => w.send_to_focused ch p
  | .send_to_all ch p => w.send_to_all ch p
  | .get_focused_window => w.get_focused_window
  | .get_last_active_window => w.get_last_active_window

/-- The request an operation sends over the wire, as a function of the
operation's arguments alone (to be proved to coincide with what every
method actually issues). -/
def Op.request : Op → InvokeCall
  | .open_window c =>
    ⟨"plugin:windows|open_window", some [("configuration", c.toJValue)]⟩
  | .open_empty_window c o =>
    ⟨"plugin:windows|open_empty_window",
     some [("configuration", c.toJValue), ("options", o.toJValue)]⟩
  | .open_existing_window c s =>
    ⟨"plugin:windows|open_existing_window",
     some [("configuration", c.toJValue), ("windowToUse", .str s)]⟩
  | .send_to_focused ch p =>
    ⟨"plugin:windows|send_to_focused",
     some [("channel", .str ch), ("payload", p)]⟩
  | .send_to_all ch p =>
    ⟨"plugin:windows|send_to_all",
     some [("channel", .str ch), ("payload", p)]⟩
  | .get_focused_window => ⟨"plugin:windows|get_focused_window", none⟩
  | .get_last_active_window => ⟨"plugin:windows|get_last_active_window", none⟩

/-- Run a sequence of operations against an instance, threading the
instance state returned by each method and concatenating the remote
calls issued. -/
def runSeq (w : Windows) (ops : List Op) (host : Host) :
    Windows × List InvokeCall :=
  match ops with
  | [] => (w, [])
  | op :: rest =>
    let d := w.dispatch op
    let r := run d.2 host
    let s := runSeq d.1 rest host
    (s.1, r.1 ++ s.2)

/-- Every method body is a single `invoke` of the operation's request
with the pass-through continuation, and returns the instance unchanged. -/
theorem dispatch_eq (w : Windows) (op : Op) :
    w.dispatch op = (w, .invokeThen op.request settle) := by
  cases op <;> rfl

/-- Running `settle r` issues no further call and settles with `r`. -/
theorem run_settle (r : Except JValue JValue) (host : Host) :
    run (settle r) host = ([], r) := by
  cases r <;> rfl

/-- Running a single-invoke pass-through body: one call, and the host's
settled result verbatim. -/
theorem run_invoke_settle (c : InvokeCall) (host : Host) :
    run (.invokeThen c settle) host = ([c], host c) := by
  show (c :: (run (settle (host c)) host).1, (run (settle (host c)) host).2) = _
  rw [run_settle]

/-- The keys of a call's argument record, in order (empty when the call
has no argument record). -/
def InvokeCall.argKeys (c : InvokeCall) : List String :=
  (c.args.getD []).map Prod.fst

/-- The value an argument record binds to a key. -/
def InvokeCall.lookupArg (c : InvokeCall) (k : String) : Option JValue :=
  (c.args.getD []).lookup k

/-- Threading any sequence of operations through the client leaves the
instance exactly as it was: no method stores anything on it. -/
theorem runSeq_state (ops : List Op) :
    ∀ (w : Windows) (host : Host), (runSeq w ops host).1 = w := by
  induction ops with
  | nil => intro w host; rfl
  | cons op rest ih =>
    intro w host
    show (runSeq (w.dispatch op).1 rest host).1 = w
    rw [dispatch_eq]
    exact ih w host

/-- The remote calls issued by a sequence of operations are exactly the
per-operation requests, in order, whatever the instance and the host. -/
theorem runSeq_trace (ops : List Op) :
    ∀ (w : Windows) (host : Host),
      (runSeq w ops host).2 = ops.map Op.request := by
  induction ops with
  | nil => intro w host; rfl
  | cons op rest ih =>
    intro w host
    show (run (w.dispatch op).2 host).1 ++ (runSeq (w.dispatch op).1 rest host).2
        = Op.request op :: rest.map Op.request
    rw [dispatch_eq]
    show (run (.invokeThen op.request settle) host).1 ++ (runSeq w rest host).2
        = Op.request op :: rest.map Op.request
    rw [run_invoke_settle, ih w host]
    rfl

/-- C1: for every `OpenConfiguration`, `open_window` issues exactly one
remote call, its command name is `plugin:windows|open_window`, its
argument record binds the given configuration under the sole key
`configuration`, and no other command is invoked: the full trace of the
invocation is that one call. -/
theorem open_window_issues_single_call (w : Windows)
    (configuration : OpenConfiguration) (host : Host) :
    (run (w.open_window configuration).2 host).1 =
      [⟨"plugin:windows|open_window",
        some [("configuration", configuration.toJValue)]⟩] := by
  show (run (.invokeThen
      ⟨"plugin:windows|open_window",
       some [("configuration", configuration.toJValue)]⟩ settle) host).1 = _
  rw [run_invoke_settle]

/-- C2: for every operation and every error value, if the remote
primitive rejects the operation's request with that error, the
operation's promise rejects with the identical error, unwrapped. -/
theorem rejection_passes_through (w : Windows) (op : Op) (host : Host)
    (e : JValue) (h : host op.request = .error e) :
    (run (w.dispatch op).2 host).2 = Except.error e := by
  rw [dispatch_eq]
  show (run (.invokeThen op.request settle) host).2 = Except.error e
  rw [run_invoke_settle]
  exact h

/-- C2 witness: a host that rejects `get_focused_window` with the string
"host unreachable" makes the method reject with that very value. -/
theorem rejection_passes_through_witness :
    (run (Windows.new.dispatch Op.get_focused_window).2
        (fun _ => .error (.str "host unreachable"))).2 =
      Except.error (JValue.str "host unreachable") :=
  rejection_passes_through Windows.new Op.get_focused_window
    (fun _ => .error (.str "host unreachable")) (JValue.str "host unreachable") rfl

/-- C3: `open_empty_window` always sends the configuration and the
options as two distinct named arguments, under the keys `configuration`
and `options`, never merged into a single record entry. -/
theorem open_empty_window_distinct_args (w : Windows)
    (configuration : OpenConfiguration) (options : WindowOptions) (host : Host) :
    (run (w.open_empty_window configuration options).2 host).1 =
      [⟨"plugin:windows|open_empty_window",
        some [("configuration", configuration.toJValue),
              ("options", options.toJValue)]⟩] ∧
    ∀ call ∈ (run (w.open_empty_window configuration options).2 host).1,
      call.argKeys = ["configuration", "options"] ∧
      call.argKeys.Nodup := by
  have htr : (run (w.open_empty_window configuration options).2 host).1 =
      [⟨"plugin:windows|open_empty_window",
        some [("configuration", configuration.toJValue),
              ("options", options.toJValue)]⟩] := by
    show (run (.invokeThen
        ⟨"plugin:windows|open_empty_window",
         some [("configuration", configuration.toJValue),
               ("options", options.toJValue)]⟩ settle) host).1 = _
    rw [run_invoke_settle]
  refine ⟨htr, ?_⟩
  intro call hc
  rw [htr, List.mem_singleton] at hc
  subst hc
  refine ⟨rfl, ?_⟩
  show List.Nodup ["configuration", "options"]
  decide

/-- C4: `open_existing_window` sends the window identifier under exactly
the key `windowToUse`: in the issued call the identifier is bound to
`windowToUse`, that key is the third component of the remote call
(after the command name and the `configuration` argument), no key of any
other casing such as `window_to_use` occurs, and no other record entry
carries the identifier. -/
theorem open_existing_window_key_casing (w : Windows)
    (configuration : OpenConfiguration) (windowToUse : String) (host : Host) :
    (run (w.open_existing_window configuration windowToUse).2 host).1 =
      [⟨"plugin:windows|open_existing_window",
        some [("configuration", configuration.toJValue),
              ("windowToUse", JValue.str windowToUse)]⟩] ∧
    ∀ call ∈ (run (w.open_existing_window configuration windowToUse).2 host).1,
      (call.cmd :: call.argKeys)[2]? = some "windowToUse" ∧
      call.lookupArg "windowToUse" = some (JValue.str windowToUse) ∧
      "window_to_use" ∉ call.argKeys ∧
      ∀ p ∈ call.args.getD [], p.2 = JValue.str windowToUse → p.1 = "windowToUse" := by
  have htr : (run (w.open_existing_window configuration windowToUse).2 host).1 =
      [⟨"plugin:windows|open_existing_window",
        some [("configuration", configuration.toJValue),
              ("windowToUse", JValue.str windowToUse)]⟩] := by
    show (run (.invokeThen
        ⟨"plugin:windows|open_existing_window",
         some [("configuration", configuration.toJValue),
               ("windowToUse", JValue.str windowToUse)]⟩ settle) host).1 = _
    rw [run_invoke_settle]
  refine ⟨htr, ?_⟩
  intro call hc
  rw [htr, List.mem_singleton] at hc
  subst hc
  refine ⟨?_, ?_, ?_, ?_⟩
  · show (("plugin:windows|open_existing_window" : String) ::
        ["configuration", "windowToUse"])[2]? = some "windowToUse"
    rfl
  · show List.lookup "windowToUse"
        [("configuration", configuration.toJValue),
         ("windowToUse", JValue.str windowToUse)] = some (JValue.str windowToUse)
    rfl
  · show ("window_to_use" : String) ∉ (["configuration", "windowToUse"] : List String)
    decide
  · intro p hp hval
    simp only [Option.getD_some, List.mem_cons, List.mem_singleton,
      List.not_mem_nil, or_false] at hp
    rcases hp with hp | hp
    · exfalso
      rw [hp] at hval
      simp only [OpenConfiguration.toJValue] at hval
      exact JValue.noConfusion hval
    · rw [hp]

/-- C5: `send_to_focused` and `send_to_all` forward any payload value
whatsoever unchanged and unvalidated, under the keys `channel` and
`payload`. -/
theorem send_payload_forwarded_unchanged (w : Windows) (channel : String)
    (payload : JValue) (host : Host) :
    (run (w.send_to_focused channel payload).2 host).1 =
      [⟨"plugin:windows|send_to_focused",
        some [("channel", .str channel), ("payload", payload)]⟩] ∧
    (run (w.send_to_all channel payload).2 host).1 =
      [⟨"plugin:windows|send_to_all",
        some [("channel", .str channel), ("payload", payload)]⟩] := by
  constructor
  · show (run (.invokeThen
        ⟨"plugin:windows|send_to_focused",
         some [("channel", .str channel), ("payload", payload)]⟩ settle) host).1 = _
    rw [run_invoke_settle]
  · show (run (.invokeThen
        ⟨"plugin:windows|send_to_all",
         some [("channel", .str channel), ("payload", payload)]⟩ settle) host).1 = _
    rw [run_invoke_settle]

/-- C6: `get_focused_window` and `get_last_active_window` issue their
remote calls with no argument record beyond the command name, and when
the underlying call succeeds (with a string, as the primitive's declared
result type for these commands states), the returned promise resolves to
that same string. -/
theorem getters_no_args_string_result (w : Windows) (host : Host) (s : String) :
    (run (w.get_focused_window).2 host).1 =
      [⟨"plugin:windows|get_focused_window", none⟩] ∧
    (run (w.get_last_active_window).2 host).1 =
      [⟨"plugin:windows|get_last_active_window", none⟩] ∧
    (host ⟨"plugin:windows|get_focused_window", none⟩ = .ok (.str s) →
      (run (w.get_focused_window).2 host).2 = .ok (.str s)) ∧
    (host ⟨"plugin:windows|get_last_active_window", none⟩ = .ok (.str s) →
      (run (w.get_last_active_window).2 host).2 = .ok (.str s)) := by
  refine ⟨?_, ?_, ?_, ?_⟩
  · show (run (.invokeThen ⟨"plugin:windows|get_focused_window", none⟩ settle) host).1 = _
    rw [run_invoke_settle]
  · show (run (.invokeThen ⟨"plugin:windows|get_last_active_window", none⟩ settle) host).1 = _
    rw [run_invoke_settle]
  · intro h
    show (run (.invokeThen ⟨"plugin:windows|get_focused_window", none⟩ settle) host).2 = _
    rw [run_invoke_settle]
    exact h
  · intro h
    show (run (.invokeThen ⟨"plugin:windows|get_last_active_window", none⟩ settle) host).2 = _
    rw [run_invoke_settle]
    exact h

/-- C6 witness: against a host answering the string "main", the focused
window getter resolves with the string "main". -/
theorem getters_no_args_string_result_witness :
    (run (WindowsService.get_focused_window).2 (fun _ => .ok (.str "main"))).2 =
      .ok (JValue.str "main") :=
  (getters_no_args_string_result WindowsService
      (fun _ => .ok (.str "main")) "main").2.2.1 rfl

/-- C7: the exported service is one shared frozen instance: every access
to the entry point yields the same object, any sequence of property
assignments attempted on it leaves it unchanged (it is frozen), and the
behavior of every operation is independent of the instance's property
map altogether, so no mutation attempt — even a hypothetically
successful one — changes the observable behavior of any subsequent
call. -/
theorem service_singleton_immutable (u u' : Unit)
    (mutations : List (String × JValue)) (op : Op) (host : Host) :
    getService u = getService u' ∧
    mutations.foldl (fun w kv => w.setProp kv.1 kv.2) WindowsService
      = WindowsService ∧
    (∀ w : Windows, run (w.dispatch op).2 host
      = run (WindowsService.dispatch op).2 host) := by
  refine ⟨rfl, ?_, ?_⟩
  · induction mutations with
    | nil => rfl
    | cons kv rest ih =>
      show rest.foldl (fun w kv => w.setProp kv.1 kv.2)
          (WindowsService.setProp kv.1 kv.2) = WindowsService
      have hfrozen : WindowsService.setProp kv.1 kv.2 = WindowsService := rfl
      rw [hfrozen]
      exact ih
  · intro w
    rw [dispatch_eq, dispatch_eq]

/-- C8: each operation issues exactly one outbound remote call — the
request determined by its arguments — and returns the host's settled
result for that call unchanged; in particular a failed call yields a
single rejection and is never retried. -/
theorem each_op_single_call_passthrough (w : Windows) (op : Op) (host : Host) :
    run (w.dispatch op).2 host = ([op.request], host op.request) ∧
    (run (w.dispatch op).2 host).1.length = 1 := by
  have h : run (w.dispatch op).2 host = ([op.request], host op.request) := by
    rw [dispatch_eq]
    show run (.invokeThen op.request settle) host = _
    rw [run_invoke_settle]
  exact ⟨h, by rw [h]; rfl⟩

/-- C9: the client retains no state and mutates nothing: the instance
threaded through any sequence of operations comes out exactly as it went
in, each single call leaves the instance untouched, and the only place
an argument goes is the single outbound request built directly from it. -/
theorem client_retains_no_state (w : Windows) (ops : List Op) (op : Op)
    (host : Host) :
    (runSeq w ops host).1 = w ∧
    (w.dispatch op).1 = w ∧
    (run (w.dispatch op).2 host).1 = [op.request] := by
  refine ⟨runSeq_state ops w host, ?_, ?_⟩
  · rw [dispatch_eq]
  · rw [dispatch_eq]
    show (run (.invokeThen op.request settle) host).1 = _
    rw [run_invoke_settle]

/-- C10: the request an operation sends is a pure function of the
operation's own arguments: whatever the instance, the host's answers,
and the history of prior calls, a sequence of operations issues exactly
the per-operation requests — so two invocations with identical arguments
always issue identical requests. -/
theorem requests_pure_function_of_args (w w' : Windows) (ops : List Op)
    (host host' : Host) :
    (runSeq w ops host).2 = ops.map Op.request ∧
    (runSeq w ops host).2 = (runSeq w' ops host').2 := by
  refine ⟨runSeq_trace ops w host, ?_⟩
  rw [runSeq_trace ops w host, runSeq_trace ops w' host']

end TauriWindows
